import Mathlib

set_option maxRecDepth 10000

/-!
Verification development for the TARA-Swing-LENS scanner.

The repository has two near-duplicate top-level variants:
  * `src/app.py`            — the "strict" variant (50-bar minimum, 50L turnover
                              floor, price floor 10, no skip log, no Trending tier);
  * `src/streamlit_app.py`  — the "relaxed" variant (20-bar minimum, 25L turnover
                              floor, skip log with reasons, Trending tier).

The shallow embedding below translates the analytical core of both variants.
Conventions:
  * prices and volumes are modelled as exact rationals (the Python code uses
    floats; all claims at issue are order/arithmetic comparisons, which the
    spec states over exact numbers);
  * a pandas series is modelled as a `List`; `.tail(n)` / `.iloc[-n:]` is
    `List.drop (length - n)`; `.iloc[-k]` is `List.getD (length - k)`;
  * `df['Close'].diff()` produces a leading NaN which pandas `.sum()` skips,
    so the abs-diff series is modelled as the length-(n-1) list of adjacent
    absolute deltas (`diffAbs`);
  * string formatting, rounding to two decimals and the ".NS" suffix strip in
    the returned records are presentation concerns (spec section 4.2) and are
    omitted: the records carry the raw computed rationals and the raw ticker;
  * network fetching (`yf.download`) is parameterised as a function
    `String → Except String (List Bar)`; the `try/except` wrapping the body of
    `analyze_stock` is modelled by the `.error` branch of that fetch, the only
    failure source in the pure translation.
-/

/-- One daily OHLCV bar. Only the fields the analyzers read are modelled:
`Open`, `Close`, `Volume` and the calendar `Year` of the session date
(`df.index.year` in the source). -/
structure Bar where
  Open : ℚ
  Close : ℚ
  Volume : ℚ
  Year : Int
deriving DecidableEq, Repr

/-- Pandas `.tail(n)` / `.iloc[-n:]` on a list: the last `n` elements
(the whole list when it is shorter than `n`, matching pandas). -/
def tailN (n : ℕ) (l : List α) : List α :=
  l.drop (l.length - n)

/-- Pandas scalar `.iloc[-k]` on a rational series, as a total function
(defaulting to 0 out of range; every use site is guarded by a length check
in the source). -/
def ilocNeg (l : List ℚ) (k : ℕ) : ℚ :=
  l.getD (l.length - k) 0

/-- Close-price series of a bar series (`df['Close']`). -/
def closesOf (df : List Bar) : List ℚ :=
  df.map Bar.Close

/-- Last close, `df['Close'].iloc[-1]` (both variants). -/
def lastClose (df : List Bar) : ℚ :=
  ilocNeg (closesOf df) 1

/-- Average volume over the trailing five sessions,
`df['Volume'].iloc[-5:].mean()` (both variants). Pandas `mean` divides by the
number of rows in the slice. -/
def avg_vol (df : List Bar) : ℚ :=
  (tailN 5 (df.map Bar.Volume)).sum / ((tailN 5 (df.map Bar.Volume)).length : ℚ)

/-- Calendar year of the most recent bar, `df.index[-1].year`
(total via `getLast?`; the source only evaluates it on non-empty frames). -/
def last_year (df : List Bar) : Int :=
  ((df.getLast?).map Bar.Year).getD 0

/-- Current-calendar-year partition, `df[df.index.year == current_year]`
(both variants, lines app.py:69-70 / streamlit_app.py:78-79). -/
def year_partition (df : List Bar) : List Bar :=
  df.filter fun b => b.Year == last_year df

/-- Cumulative volume-weighted average price evaluated at the last bar of a
partition: the source computes `(Close*Volume).cumsum() / Volume.cumsum()` and
takes `.iloc[-1]`, whose value is the ratio of the two full sums modelled
here (app.py:74-77, streamlit_app.py:84-85). -/
def vwap (df_y : List Bar) : ℚ :=
  ((df_y.map fun b => b.Close * b.Volume).sum) / ((df_y.map Bar.Volume).sum)

/-- Trailing 50-session simple moving average of close,
`df['Close'].rolling(50).mean().iloc[-1]` (streamlit_app.py:82). On fewer
than 50 rows pandas yields NaN, modelled as 0; the branch using this value is
proved unreachable below. -/
def sma50 (df : List Bar) : ℚ :=
  if df.length < 50 then 0 else (tailN 50 (closesOf df)).sum / 50

/-- Baseline of the relaxed variant (streamlit_app.py:78-85): yearly VWAP of
the current-year partition, falling back to the 50-session SMA when the
partition is empty. -/
def current_yvwap_sl (df : List Bar) : ℚ :=
  if year_partition df = [] then sma50 df else vwap (year_partition df)

/-- Count of green candles among the last 20 sessions,
`(df['Close'] > df['Open']).astype(int).tail(20).sum()` (both variants). -/
def green_candles (df : List Bar) : ℕ :=
  (tailN 20 df).countP fun b => decide (b.Open < b.Close)

/-- Consistency percentage, `(green_candles / 20) * 100` (both variants). -/
def consistency (df : List Bar) : ℚ :=
  ((green_candles df : ℚ) / 20) * 100

/-- Absolute value on rationals as an executable conditional — the Python
`abs` — proved equal to Mathlib's `|·|` in `ratAbs_eq_abs` below. -/
def ratAbs (x : ℚ) : ℚ :=
  if x < 0 then -x else x

/-- Adjacent absolute deltas of a series: `abs(series.diff())` with the
leading NaN removed (pandas `.sum()` skips NaN, so dropping it is
sum-equivalent). -/
def diffAbs : List ℚ → List ℚ
  | a :: b :: t => ratAbs (b - a) :: diffAbs (b :: t)
  | _ => []

/-- Net 20-session move, `abs(Close.iloc[-1] - Close.iloc[-20])`
(both variants, lookback 20). -/
def net_change (df : List Bar) : ℚ :=
  ratAbs (ilocNeg (closesOf df) 1 - ilocNeg (closesOf df) 20)

/-- Total 20-delta path, `abs(Close.diff()).tail(20).sum()` (both variants). -/
def total_path (df : List Bar) : ℚ :=
  (tailN 20 (diffAbs (closesOf df))).sum

/-- Efficiency ratio, `net / path if path != 0 else 0` (both variants). -/
def efficiency (df : List Bar) : ℚ :=
  if total_path df ≠ 0 then net_change df / total_path df else 0

/-- Status chain of the relaxed variant (streamlit_app.py:98-111):
Diamond, then Watchlist, then Trending, else NEUTRAL. The Python float
literal 0.30 is the exact rational 3/10. -/
def statusOf_sl (price current_yvwap consistency efficiency : ℚ) : String :=
  if price > current_yvwap ∧ consistency ≥ 60 ∧ efficiency ≥ 3/10 then
    "💎 INSTITUTIONAL BUY"
  else if price > current_yvwap ∧ consistency ≥ 50 then
    "📝 WATCHLIST"
  else if price > current_yvwap then
    "🔵 TRENDING (Test)"
  else
    "NEUTRAL"

/-- Status chain of the strict variant (app.py:92-98): Diamond, then
Watchlist, else NEUTRAL (no Trending tier). -/
def statusOf_app (price current_yvwap consistency efficiency : ℚ) : String :=
  if price > current_yvwap ∧ consistency ≥ 60 ∧ efficiency ≥ 3/10 then
    "💎 INSTITUTIONAL BUY"
  else if price > current_yvwap ∧ consistency ≥ 50 then
    "📝 WATCHLIST"
  else
    "NEUTRAL"

/-- Success record of the relaxed variant (streamlit_app.py:116-123).
`Symbol` keeps the raw ticker and the numeric fields keep the raw rationals;
the source's `round(..., 2)`, percent formatting and ".NS" strip are
presentation-layer string formatting. -/
structure SLResult where
  Symbol : String
  Price : ℚ
  Status : String
  Consistency : ℚ
  Efficiency : ℚ
  YVWAP : ℚ
deriving DecidableEq, Repr

/-- Skip record of the relaxed variant: exactly the two keys of the source
dicts `{"Ticker": ..., "Reason": ...}` (streamlit_app.py:58,73,114,126).
By construction it carries no baseline/consistency/efficiency fields. -/
structure SLSkip where
  Ticker : String
  Reason : String
deriving DecidableEq, Repr

/-- Outcome of the relaxed analyzer: a result dict (has a `"Status"` key) or
a skip dict (no `"Status"` key), exactly the discrimination `run_scan` makes
at streamlit_app.py:147. -/
inductive SLOut where
  | result : SLResult → SLOut
  | skip : SLSkip → SLOut
deriving DecidableEq, Repr

/-- Analytic body of `analyze_stock` in the relaxed variant
(streamlit_app.py:50-126), as a function of the already-fetched bar series.
Stage order as in the source: data-existence check (`df.empty or len < 20`),
liquidity (turnover only — the source has no price-floor test), baseline,
consistency, efficiency, status chain, NEUTRAL discarded as a skip.
The MultiIndex column flattening (lines 61-65) is data-format normalisation
with no analytic content and is not modelled. -/
def analyze_stock_sl (ticker : String) (df : List Bar) : SLOut :=
  if df = [] ∨ df.length < 20 then
    .skip ⟨ticker, "No Data/Too New"⟩
  else if avg_vol df * lastClose df < 2500000 then
    .skip ⟨ticker, "Illiquid"⟩
  else if statusOf_sl (lastClose df) (current_yvwap_sl df) (consistency df) (efficiency df)
      = "NEUTRAL" then
    .skip ⟨ticker, "Failed Criteria"⟩
  else
    .result ⟨ticker, lastClose df,
      statusOf_sl (lastClose df) (current_yvwap_sl df) (consistency df) (efficiency df),
      consistency df, efficiency df, current_yvwap_sl df⟩

/-- Success record of the strict variant (app.py:102-109); the last field is
the raw percentage distance from the baseline (`YVWAP %`). -/
structure AppResult where
  Symbol : String
  Price : ℚ
  Status : String
  Consistency : ℚ
  Efficiency : ℚ
  YVWAP_pct : ℚ
deriving DecidableEq, Repr

/-- Analytic body of `analyze_stock` in the strict variant (app.py:48-112),
as a function of the already-fetched bar series. Every rejection site in the
source is a bare `return None`; the result type is therefore `Option`, with
`none` covering insufficient data (line 59), the liquidity/price filter
(line 65), the empty-partition guard (line 72) and the NEUTRAL discard
(line 100). -/
def analyze_stock_app (ticker : String) (df : List Bar) : Option AppResult :=
  if df.length < 50 then
    none
  else if avg_vol df * lastClose df < 5000000 ∨ lastClose df < 10 then
    none
  else if year_partition df = [] then
    none
  else if statusOf_app (lastClose df) (vwap (year_partition df)) (consistency df) (efficiency df)
      = "NEUTRAL" then
    none
  else
    some ⟨ticker, lastClose df,
      statusOf_app (lastClose df) (vwap (year_partition df)) (consistency df) (efficiency df),
      consistency df, efficiency df,
      ((lastClose df - vwap (year_partition df)) / vwap (year_partition df)) * 100⟩

/-- Full `analyze_stock` of the relaxed variant including the `try/except`:
a failed download (or any exception inside the body, which the pure
translation cannot raise) yields the `Error:` skip dict
(streamlit_app.py:125-126). -/
def analyze_stock_sl_fetch (fetch : String → Except String (List Bar)) (ticker : String) : SLOut :=
  match fetch ticker with
  | .error e => .skip ⟨ticker, "Error: " ++ e⟩
  | .ok df => analyze_stock_sl ticker df

/-- Full `analyze_stock` of the strict variant including the bare
`except: return None` (app.py:111-112). -/
def analyze_stock_app_fetch (fetch : String → Except String (List Bar)) (ticker : String) :
    Option AppResult :=
  match fetch ticker with
  | .error _ => none
  | .ok df => analyze_stock_app ticker df

/-- Scan coordinator of the relaxed variant (streamlit_app.py:129-159):
every ticker is submitted exactly once (`executor.submit` per list element),
and every completed future's dict is routed by the `"Status" in res` test to
`results` or to `skipped_log`. Concurrency only permutes completion order;
the embedding collects in input order, which is equivalent for the counting
and membership facts proved here. Progress-bar updates are presentation. -/
def run_scan_sl (fetch : String → Except String (List Bar)) (ticker_list : List String) :
    List SLResult × List SLSkip :=
  match ticker_list with
  | [] => ([], [])
  | t :: rest =>
    let acc := run_scan_sl fetch rest
    match analyze_stock_sl_fetch fetch t with
    | .result r => (r :: acc.1, acc.2)
    | .skip s => (acc.1, s :: acc.2)

/-- Scan coordinator of the strict variant (app.py:116-142): only truthy
results are appended (`if data: results.append(data)`); a `None` is dropped
with no record, and the report is the results list alone. -/
def run_scan_app (fetch : String → Except String (List Bar)) (ticker_list : List String) :
    List AppResult :=
  match ticker_list with
  | [] => []
  | t :: rest =>
    match analyze_stock_app_fetch fetch t with
    | some r => r :: run_scan_app fetch rest
    | none => run_scan_app fetch rest

/-- Concrete 50-bar series: 30 flat red 2024 bars at close 100, then 20 green
2025 bars rising 100..119 (volume 1,000,000 throughout). The efficiency
window's leading step (close index 28 to 29... indices 29/30) is flat, the last
20 sessions are green, and the last close 119 exceeds the 2025 VWAP 109.5. -/
def witSeries : List Bar :=
  [⟨101, 100, 1000000, 2024⟩,
   ⟨101, 100, 1000000, 2024⟩,
   ⟨101, 100, 1000000, 2024⟩,
   ⟨101, 100, 1000000, 2024⟩,
   ⟨101, 100, 1000000, 2024⟩,
   ⟨101, 100, 1000000, 2024⟩,
   ⟨101, 100, 1000000, 2024⟩,
   ⟨101, 100, 1000000, 2024⟩,
   ⟨101, 100, 1000000, 2024⟩,
   ⟨101, 100, 1000000, 2024⟩,
   ⟨101, 100, 1000000, 2024⟩,
   ⟨101, 100, 1000000, 2024⟩,
   ⟨101, 100, 1000000, 2024⟩,
   ⟨101, 100, 1000000, 2024⟩,
   ⟨101, 100, 1000000, 2024⟩,
   ⟨101, 100, 1000000, 2024⟩,
   ⟨101, 100, 1000000, 2024⟩,
   ⟨101, 100, 1000000, 2024⟩,
   ⟨101, 100, 1000000, 2024⟩,
   ⟨101, 100, 1000000, 2024⟩,
   ⟨101, 100, 1000000, 2024⟩,
   ⟨101, 100, 1000000, 2024⟩,
   ⟨101, 100, 1000000, 2024⟩,
   ⟨101, 100, 1000000, 2024⟩,
   ⟨101, 100, 1000000, 2024⟩,
   ⟨101, 100, 1000000, 2024⟩,
   ⟨101, 100, 1000000, 2024⟩,
   ⟨101, 100, 1000000, 2024⟩,
   ⟨101, 100, 1000000, 2024⟩,
   ⟨101, 100, 1000000, 2024⟩,
   ⟨99, 100, 1000000, 2025⟩,
   ⟨100, 101, 1000000, 2025⟩,
   ⟨101, 102, 1000000, 2025⟩,
   ⟨102, 103, 1000000, 2025⟩,
   ⟨103, 104, 1000000, 2025⟩,
   ⟨104, 105, 1000000, 2025⟩,
   ⟨105, 106, 1000000, 2025⟩,
   ⟨106, 107, 1000000, 2025⟩,
   ⟨107, 108, 1000000, 2025⟩,
   ⟨108, 109, 1000000, 2025⟩,
   ⟨109, 110, 1000000, 2025⟩,
   ⟨110, 111, 1000000, 2025⟩,
   ⟨111, 112, 1000000, 2025⟩,
   ⟨112, 113, 1000000, 2025⟩,
   ⟨113, 114, 1000000, 2025⟩,
   ⟨114, 115, 1000000, 2025⟩,
   ⟨115, 116, 1000000, 2025⟩,
   ⟨116, 117, 1000000, 2025⟩,
   ⟨117, 118, 1000000, 2025⟩,
   ⟨118, 119, 1000000, 2025⟩]

/-- Concrete 50-bar series with strictly increasing closes: 28 bars in 2024
rising 60..87, one 2025 bar at close 90 (volume 2,100,000), then 21 green 2025
bars rising 100, 100.5, ..., 110 (volume 200,000 each). The 2025 VWAP is
exactly 100 and the last close 110 is exactly 10 percent above it. -/
def cex6 : List Bar :=
  [⟨59, 60, 100000, 2024⟩,
   ⟨60, 61, 100000, 2024⟩,
   ⟨61, 62, 100000, 2024⟩,
   ⟨62, 63, 100000, 2024⟩,
   ⟨63, 64, 100000, 2024⟩,
   ⟨64, 65, 100000, 2024⟩,
   ⟨65, 66, 100000, 2024⟩,
   ⟨66, 67, 100000, 2024⟩,
   ⟨67, 68, 100000, 2024⟩,
   ⟨68, 69, 100000, 2024⟩,
   ⟨69, 70, 100000, 2024⟩,
   ⟨70, 71, 100000, 2024⟩,
   ⟨71, 72, 100000, 2024⟩,
   ⟨72, 73, 100000, 2024⟩,
   ⟨73, 74, 100000, 2024⟩,
   ⟨74, 75, 100000, 2024⟩,
   ⟨75, 76, 100000, 2024⟩,
   ⟨76, 77, 100000, 2024⟩,
   ⟨77, 78, 100000, 2024⟩,
   ⟨78, 79, 100000, 2024⟩,
   ⟨79, 80, 100000, 2024⟩,
   ⟨80, 81, 100000, 2024⟩,
   ⟨81, 82, 100000, 2024⟩,
   ⟨82, 83, 100000, 2024⟩,
   ⟨83, 84, 100000, 2024⟩,
   ⟨84, 85, 100000, 2024⟩,
   ⟨85, 86, 100000, 2024⟩,
   ⟨86, 87, 100000, 2024⟩,
   ⟨89, 90, 2100000, 2025⟩,
   ⟨99, 100, 200000, 2025⟩,
   ⟨(199/2 : ℚ), (201/2 : ℚ), 200000, 2025⟩,
   ⟨100, 101, 200000, 2025⟩,
   ⟨(201/2 : ℚ), (203/2 : ℚ), 200000, 2025⟩,
   ⟨101, 102, 200000, 2025⟩,
   ⟨(203/2 : ℚ), (205/2 : ℚ), 200000, 2025⟩,
   ⟨102, 103, 200000, 2025⟩,
   ⟨(205/2 : ℚ), (207/2 : ℚ), 200000, 2025⟩,
   ⟨103, 104, 200000, 2025⟩,
   ⟨(207/2 : ℚ), (209/2 : ℚ), 200000, 2025⟩,
   ⟨104, 105, 200000, 2025⟩,
   ⟨(209/2 : ℚ), (211/2 : ℚ), 200000, 2025⟩,
   ⟨105, 106, 200000, 2025⟩,
   ⟨(211/2 : ℚ), (213/2 : ℚ), 200000, 2025⟩,
   ⟨106, 107, 200000, 2025⟩,
   ⟨(213/2 : ℚ), (215/2 : ℚ), 200000, 2025⟩,
   ⟨107, 108, 200000, 2025⟩,
   ⟨(215/2 : ℚ), (217/2 : ℚ), 200000, 2025⟩,
   ⟨108, 109, 200000, 2025⟩,
   ⟨(217/2 : ℚ), (219/2 : ℚ), 200000, 2025⟩,
   ⟨109, 110, 200000, 2025⟩]

/-- Concrete 20-bar constant series (close 100, open 101, volume 1,000,000):
passes sufficiency and liquidity, price equals the baseline, so every
classification tier fails and the outcome is NEUTRAL. -/
def neutralSeries : List Bar :=
  [⟨101, 100, 1000000, 2025⟩,
   ⟨101, 100, 1000000, 2025⟩,
   ⟨101, 100, 1000000, 2025⟩,
   ⟨101, 100, 1000000, 2025⟩,
   ⟨101, 100, 1000000, 2025⟩,
   ⟨101, 100, 1000000, 2025⟩,
   ⟨101, 100, 1000000, 2025⟩,
   ⟨101, 100, 1000000, 2025⟩,
   ⟨101, 100, 1000000, 2025⟩,
   ⟨101, 100, 1000000, 2025⟩,
   ⟨101, 100, 1000000, 2025⟩,
   ⟨101, 100, 1000000, 2025⟩,
   ⟨101, 100, 1000000, 2025⟩,
   ⟨101, 100, 1000000, 2025⟩,
   ⟨101, 100, 1000000, 2025⟩,
   ⟨101, 100, 1000000, 2025⟩,
   ⟨101, 100, 1000000, 2025⟩,
   ⟨101, 100, 1000000, 2025⟩,
   ⟨101, 100, 1000000, 2025⟩,
   ⟨101, 100, 1000000, 2025⟩]

/-- Concrete 50-bar series with zero volume: turnover 0, rejected by the
liquidity filter of both variants. -/
def illiq50 : List Bar :=
  [⟨101, 100, 0, 2025⟩,
   ⟨101, 100, 0, 2025⟩,
   ⟨101, 100, 0, 2025⟩,
   ⟨101, 100, 0, 2025⟩,
   ⟨101, 100, 0, 2025⟩,
   ⟨101, 100, 0, 2025⟩,
   ⟨101, 100, 0, 2025⟩,
   ⟨101, 100, 0, 2025⟩,
   ⟨101, 100, 0, 2025⟩,
   ⟨101, 100, 0, 2025⟩,
   ⟨101, 100, 0, 2025⟩,
   ⟨101, 100, 0, 2025⟩,
   ⟨101, 100, 0, 2025⟩,
   ⟨101, 100, 0, 2025⟩,
   ⟨101, 100, 0, 2025⟩,
   ⟨101, 100, 0, 2025⟩,
   ⟨101, 100, 0, 2025⟩,
   ⟨101, 100, 0, 2025⟩,
   ⟨101, 100, 0, 2025⟩,
   ⟨101, 100, 0, 2025⟩,
   ⟨101, 100, 0, 2025⟩,
   ⟨101, 100, 0, 2025⟩,
   ⟨101, 100, 0, 2025⟩,
   ⟨101, 100, 0, 2025⟩,
   ⟨101, 100, 0, 2025⟩,
   ⟨101, 100, 0, 2025⟩,
   ⟨101, 100, 0, 2025⟩,
   ⟨101, 100, 0, 2025⟩,
   ⟨101, 100, 0, 2025⟩,
   ⟨101, 100, 0, 2025⟩,
   ⟨101, 100, 0, 2025⟩,
   ⟨101, 100, 0, 2025⟩,
   ⟨101, 100, 0, 2025⟩,
   ⟨101, 100, 0, 2025⟩,
   ⟨101, 100, 0, 2025⟩,
   ⟨101, 100, 0, 2025⟩,
   ⟨101, 100, 0, 2025⟩,
   ⟨101, 100, 0, 2025⟩,
   ⟨101, 100, 0, 2025⟩,
   ⟨101, 100, 0, 2025⟩,
   ⟨101, 100, 0, 2025⟩,
   ⟨101, 100, 0, 2025⟩,
   ⟨101, 100, 0, 2025⟩,
   ⟨101, 100, 0, 2025⟩,
   ⟨101, 100, 0, 2025⟩,
   ⟨101, 100, 0, 2025⟩,
   ⟨101, 100, 0, 2025⟩,
   ⟨101, 100, 0, 2025⟩,
   ⟨101, 100, 0, 2025⟩,
   ⟨101, 100, 0, 2025⟩]

/-- Concrete 20-bar series with last close 5 — below both price floors (10 and
20) — but turnover 5,000,000 above the relaxed variant's 2,500,000 floor. -/
def cex3 : List Bar :=
  [⟨6, 5, 1000000, 2025⟩,
   ⟨6, 5, 1000000, 2025⟩,
   ⟨6, 5, 1000000, 2025⟩,
   ⟨6, 5, 1000000, 2025⟩,
   ⟨6, 5, 1000000, 2025⟩,
   ⟨6, 5, 1000000, 2025⟩,
   ⟨6, 5, 1000000, 2025⟩,
   ⟨6, 5, 1000000, 2025⟩,
   ⟨6, 5, 1000000, 2025⟩,
   ⟨6, 5, 1000000, 2025⟩,
   ⟨6, 5, 1000000, 2025⟩,
   ⟨6, 5, 1000000, 2025⟩,
   ⟨6, 5, 1000000, 2025⟩,
   ⟨6, 5, 1000000, 2025⟩,
   ⟨6, 5, 1000000, 2025⟩,
   ⟨6, 5, 1000000, 2025⟩,
   ⟨6, 5, 1000000, 2025⟩,
   ⟨6, 5, 1000000, 2025⟩,
   ⟨6, 5, 1000000, 2025⟩,
   ⟨6, 5, 1000000, 2025⟩]

/-- Executable check that adjacent elements are nondecreasing (used to state
scenario hypotheses decidably; bridged to `List.Chain'` below). -/
def nondecB : List ℚ → Bool
  | a :: b :: t => decide (a ≤ b) && nondecB (b :: t)
  | _ => true

/-- Executable check that adjacent elements are equal. -/
def constB : List ℚ → Bool
  | a :: b :: t => decide (a = b) && constB (b :: t)
  | _ => true

/-- Executable check that adjacent elements strictly increase. -/
def strictIncB : List ℚ → Bool
  | a :: b :: t => decide (a < b) && strictIncB (b :: t)
  | _ => true

/-- The record `analyze_stock` of the relaxed variant produces on `witSeries`. -/
def witRec : SLResult :=
  ⟨"T", 119, "💎 INSTITUTIONAL BUY", 100, 1, 219/2⟩

/-- A single bar, for exercising the baseline lemmas. -/
def oneBar : Bar :=
  ⟨1, 2, 3, 2025⟩

/-- A fetch stub that returns an empty frame for every ticker. -/
def emptyFetch : String → Except String (List Bar) :=
  fun _ => .ok []

unseal Rat.add Rat.sub Rat.mul Rat.inv Rat.ofScientific

/-- Executable absolute value agrees with Mathlib's `|·|`. -/
theorem ratAbs_eq_abs (x : ℚ) : ratAbs x = |x| := by
  by_cases h : x < 0
  · rw [ratAbs, if_pos h, abs_of_neg h]
  · rw [ratAbs, if_neg h, abs_of_nonneg (le_of_not_lt h)]

theorem ratAbs_nonneg (x : ℚ) : 0 ≤ ratAbs x := by
  rw [ratAbs_eq_abs]; exact abs_nonneg x

theorem ratAbs_of_le {a b : ℚ} (h : a ≤ b) : ratAbs (b - a) = b - a := by
  rw [ratAbs_eq_abs, abs_of_nonneg (by linarith)]

theorem diffAbs_mem_nonneg : ∀ (l : List ℚ), ∀ x ∈ diffAbs l, 0 ≤ x
  | [], x, hx => by simp [diffAbs] at hx
  | [a], x, hx => by simp [diffAbs] at hx
  | a :: b :: t, x, hx => by
    rw [diffAbs] at hx
    rcases List.mem_cons.mp hx with h | h
    · rw [h]; exact ratAbs_nonneg _
    · exact diffAbs_mem_nonneg (b :: t) x h

theorem diffAbs_sum_nonneg (l : List ℚ) : 0 ≤ (diffAbs l).sum :=
  List.sum_nonneg (diffAbs_mem_nonneg l)

theorem diffAbs_length : ∀ l : List ℚ, (diffAbs l).length = l.length - 1
  | [] => by simp [diffAbs]
  | [a] => by simp [diffAbs]
  | a :: b :: t => by
    rw [diffAbs, List.length_cons, diffAbs_length (b :: t)]
    simp

theorem diffAbs_drop : ∀ (k : ℕ) (l : List ℚ), diffAbs (l.drop k) = (diffAbs l).drop k
  | 0, l => by simp
  | k + 1, [] => by simp [diffAbs]
  | k + 1, [a] => by simp [diffAbs]
  | k + 1, a :: b :: t => by
    have h := diffAbs_drop k (b :: t)
    simp only [List.drop_succ_cons, diffAbs]
    exact h

theorem sum_drop_le_sum : ∀ (l : List ℚ), (∀ x ∈ l, 0 ≤ x) → ∀ k : ℕ, (l.drop k).sum ≤ l.sum
  | [], _, k => by simp
  | a :: t, h, 0 => le_refl _
  | a :: t, h, k + 1 => by
    have ha : 0 ≤ a := h a (List.mem_cons_self a t)
    have ht : ∀ x ∈ t, 0 ≤ x := fun x hx => h x (List.mem_cons_of_mem a hx)
    calc ((a :: t).drop (k + 1)).sum = (t.drop k).sum := by rw [List.drop_succ_cons]
    _ ≤ t.sum := sum_drop_le_sum t ht k
    _ ≤ a + t.sum := by linarith
    _ = (a :: t).sum := (List.sum_cons).symm

theorem sum_drop_mono (l : List ℚ) (h : ∀ x ∈ l, 0 ≤ x) {j k : ℕ} (hjk : j ≤ k) :
    (l.drop k).sum ≤ (l.drop j).sum := by
  have hd : l.drop k = (l.drop j).drop (k - j) := by
    rw [List.drop_drop]
    congr 1
    omega
  rw [hd]
  exact sum_drop_le_sum (l.drop j) (fun x hx => h x (List.mem_of_mem_drop hx)) (k - j)

theorem getD_drop (l : List ℚ) (k i : ℕ) : (l.drop k).getD i 0 = l.getD (k + i) 0 := by
  simp [List.getD_eq_getElem?_getD, List.getElem?_drop]

/-- Triangle-inequality telescope: the absolute difference between the last
element (at index `t.length` of `a :: t`) and the head is at most the sum of
the adjacent absolute deltas. -/
theorem telescope_le : ∀ (a : ℚ) (t : List ℚ),
    ratAbs ((a :: t).getD t.length 0 - a) ≤ (diffAbs (a :: t)).sum
  | a, [] => by simp [diffAbs, ratAbs_eq_abs]
  | a, b :: t' => by
    have ih := telescope_le b t'
    have habc : ratAbs ((b :: t').getD t'.length 0 - a)
        ≤ ratAbs ((b :: t').getD t'.length 0 - b) + ratAbs (b - a) := by
      rw [ratAbs_eq_abs, ratAbs_eq_abs, ratAbs_eq_abs]
      exact abs_sub_le _ b a
    calc ratAbs ((a :: b :: t').getD (b :: t').length 0 - a)
        = ratAbs ((b :: t').getD t'.length 0 - a) := by rw [List.length_cons, List.getD_cons_succ]
    _ ≤ ratAbs ((b :: t').getD t'.length 0 - b) + ratAbs (b - a) := habc
    _ ≤ (diffAbs (b :: t')).sum + ratAbs (b - a) := by linarith
    _ = (diffAbs (a :: b :: t')).sum := by rw [diffAbs, List.sum_cons]; ring

/-- For a nondecreasing run the deltas telescope exactly: the path sum equals
last minus first. -/
theorem chain_le_sum : ∀ (a : ℚ) (t : List ℚ), List.Chain (· ≤ ·) a t →
    (diffAbs (a :: t)).sum = (a :: t).getD t.length 0 - a
  | a, [], _ => by simp [diffAbs]
  | a, b :: t', h => by
    rcases List.chain_cons.mp h with ⟨hab, hbt⟩
    have ih := chain_le_sum b t' hbt
    rw [List.length_cons, List.getD_cons_succ, diffAbs, List.sum_cons, ih, ratAbs_of_le hab]
    ring

/-- For a constant run every delta is zero. -/
theorem chain_eq_sum : ∀ (a : ℚ) (t : List ℚ), List.Chain (· = ·) a t →
    (diffAbs (a :: t)).sum = 0
  | a, [], _ => by simp [diffAbs]
  | a, b :: t', h => by
    rcases List.chain_cons.mp h with ⟨hab, hbt⟩
    have ih := chain_eq_sum b t' hbt
    rw [diffAbs, List.sum_cons, ih, hab, ratAbs_eq_abs]
    simp

theorem closesOf_length (df : List Bar) : (closesOf df).length = df.length := by
  simp [closesOf]

/-- The 20-delta path window equals the delta list of the last 21 closes
(`tail(20)` of the diff series starts one session before `iloc[-20]`). -/
theorem total_path_window (df : List Bar) :
    total_path df = (diffAbs ((closesOf df).drop (df.length - 21))).sum := by
  rw [total_path, tailN, diffAbs_length, diffAbs_drop, closesOf_length, Nat.sub_sub]

/-- The current-year partition contains the most recent bar, hence is
non-empty for every non-empty series: the empty-partition fallbacks of both
variants are dead code. -/
theorem year_partition_ne_nil {df : List Bar} (h : df ≠ []) : year_partition df ≠ [] := by
  have hmem : df.getLast h ∈ df := List.getLast_mem h
  have hyear : (df.getLast h).Year = last_year df := by
    rw [last_year, List.getLast?_eq_getLast df h]
    rfl
  refine List.ne_nil_of_mem (a := df.getLast h) ?_
  rw [year_partition, List.mem_filter]
  exact ⟨hmem, by rw [hyear]; exact beq_self_eq_true _⟩

/-- On every non-empty series the relaxed baseline is the VWAP of the
current-year partition (the SMA branch is never taken). -/
theorem current_yvwap_sl_eq_vwap {df : List Bar} (h : df ≠ []) :
    current_yvwap_sl df = vwap (year_partition df) := by
  rw [current_yvwap_sl, if_neg (year_partition_ne_nil h)]

theorem statusOf_sl_diamond (p b c e : ℚ) :
    statusOf_sl p b c e = "💎 INSTITUTIONAL BUY" ↔ b < p ∧ 60 ≤ c ∧ 3/10 ≤ e := by
  rw [statusOf_sl]
  split_ifs with h1 h2 h3
  · simpa using h1
  · simp only [String.reduceEq, false_iff]
    exact h1
  · simp only [String.reduceEq, false_iff]
    exact h1
  · simp only [String.reduceEq, false_iff]
    exact h1

theorem statusOf_sl_watch (p b c e : ℚ) :
    statusOf_sl p b c e = "📝 WATCHLIST" ↔ b < p ∧ 50 ≤ c ∧ ¬(60 ≤ c ∧ 3/10 ≤ e) := by
  rw [statusOf_sl]
  split_ifs with h1 h2 h3
  · simp only [String.reduceEq, false_iff]
    rcases h1 with ⟨hp, hc, he⟩
    intro hcon
    exact hcon.2.2 ⟨hc, he⟩
  · simp only [String.reduceEq, true_iff]
    push_neg at h1
    exact ⟨h2.1, h2.2, fun hce => absurd (hce.2) (not_le_of_lt (h1 h2.1 hce.1))⟩
  · simp only [String.reduceEq, false_iff]
    intro hcon
    exact h2 ⟨hcon.1, hcon.2.1⟩
  · simp only [String.reduceEq, false_iff]
    intro hcon
    exact h2 ⟨hcon.1, hcon.2.1⟩

theorem statusOf_sl_trending (p b c e : ℚ) :
    statusOf_sl p b c e = "🔵 TRENDING (Test)" ↔ b < p ∧ c < 50 := by
  rw [statusOf_sl]
  split_ifs with h1 h2 h3
  · simp only [String.reduceEq, false_iff]
    intro hcon
    rcases h1 with ⟨-, hc, -⟩
    linarith [hcon.2]
  · simp only [String.reduceEq, false_iff]
    intro hcon
    linarith [h2.2, hcon.2]
  · simp only [String.reduceEq, true_iff]
    refine ⟨h3, ?_⟩
    by_contra hc
    exact h2 ⟨h3, le_of_not_lt hc⟩
  · simp only [String.reduceEq, false_iff]
    intro hcon
    exact h3 hcon.1

theorem statusOf_sl_neutral (p b c e : ℚ) :
    statusOf_sl p b c e = "NEUTRAL" ↔ p ≤ b := by
  rw [statusOf_sl]
  split_ifs with h1 h2 h3
  · simp only [String.reduceEq, false_iff]
    intro hcon
    exact absurd h1.1 (not_lt_of_le hcon)
  · simp only [String.reduceEq, false_iff]
    intro hcon
    exact absurd h2.1 (not_lt_of_le hcon)
  · simp only [String.reduceEq, false_iff]
    intro hcon
    exact absurd h3 (not_lt_of_le hcon)
  · simp only [String.reduceEq, true_iff]
    exact le_of_not_lt h3

theorem statusOf_app_diamond (p b c e : ℚ) :
    statusOf_app p b c e = "💎 INSTITUTIONAL BUY" ↔ b < p ∧ 60 ≤ c ∧ 3/10 ≤ e := by
  rw [statusOf_app]
  split_ifs with h1 h2
  · simpa using h1
  · simp only [String.reduceEq, false_iff]
    exact h1
  · simp only [String.reduceEq, false_iff]
    exact h1

theorem statusOf_app_watch (p b c e : ℚ) :
    statusOf_app p b c e = "📝 WATCHLIST" ↔ b < p ∧ 50 ≤ c ∧ ¬(60 ≤ c ∧ 3/10 ≤ e) := by
  rw [statusOf_app]
  split_ifs with h1 h2
  · simp only [String.reduceEq, false_iff]
    rcases h1 with ⟨hp, hc, he⟩
    intro hcon
    exact hcon.2.2 ⟨hc, he⟩
  · simp only [String.reduceEq, true_iff]
    push_neg at h1
    exact ⟨h2.1, h2.2, fun hce => absurd (hce.2) (not_le_of_lt (h1 h2.1 hce.1))⟩
  · simp only [String.reduceEq, false_iff]
    intro hcon
    exact h2 ⟨hcon.1, hcon.2.1⟩

theorem statusOf_app_neutral (p b c e : ℚ) :
    statusOf_app p b c e = "NEUTRAL" ↔ p ≤ b ∨ c < 50 := by
  rw [statusOf_app]
  split_ifs with h1 h2
  · simp only [String.reduceEq, false_iff]
    intro hcon
    rcases hcon with hp | hc
    · exact absurd h1.1 (not_lt_of_le hp)
    · linarith [h1.2.1]
  · simp only [String.reduceEq, false_iff]
    intro hcon
    rcases hcon with hp | hc
    · exact absurd h2.1 (not_lt_of_le hp)
    · linarith [h2.2]
  · simp only [String.reduceEq, true_iff]
    by_cases hp : p ≤ b
    · exact Or.inl hp
    · right
      by_contra hc
      exact h2 ⟨lt_of_not_le hp, le_of_not_lt hc⟩

/-- When every one of the last 20 sessions is green the consistency is
exactly 100 percent. -/
theorem consistency_of_all_green {df : List Bar} (h20 : 20 ≤ df.length)
    (hg : ∀ b ∈ df.drop (df.length - 20), b.Open < b.Close) : consistency df = 100 := by
  have hlen : (df.drop (df.length - 20)).length = 20 := by
    rw [List.length_drop]
    omega
  have hc : green_candles df = 20 := by
    rw [green_candles, tailN]
    rw [List.countP_eq_length.mpr ?_, hlen]
    intro a ha
    simpa using hg a ha
  rw [consistency, hc]
  norm_num

/-- Triangle inequality for the efficiency ratio: the 20-session net move
never exceeds the 20-delta path sum. -/
theorem net_le_total_path {df : List Bar} (h20 : 20 ≤ df.length) :
    net_change df ≤ total_path df := by
  set cl := closesOf df with hcl
  have hm : cl.length = df.length := closesOf_length df
  have hwlen : (cl.drop (cl.length - 20)).length = 20 := by
    rw [List.length_drop]
    omega
  rcases hw : cl.drop (cl.length - 20) with _ | ⟨a, t⟩
  · rw [hw] at hwlen
    simp at hwlen
  · have htlen : t.length = 19 := by
      rw [hw] at hwlen
      simpa using hwlen
    have htel := telescope_le a t
    have ha : ilocNeg cl 20 = a := by
      have h0 := getD_drop cl (cl.length - 20) 0
      rw [hw] at h0
      simpa [ilocNeg] using h0.symm
    have hlast : (a :: t).getD t.length 0 = ilocNeg cl 1 := by
      have h19 := getD_drop cl (cl.length - 20) 19
      rw [hw] at h19
      rw [htlen, h19, ilocNeg]
      congr 1
      omega
    have hnet : net_change df = ratAbs ((a :: t).getD t.length 0 - a) := by
      rw [net_change, ← hcl, hlast, ha]
    have hsum : (diffAbs (a :: t)).sum ≤ total_path df := by
      have hdd : diffAbs (a :: t) = (diffAbs cl).drop (cl.length - 20) := by
        rw [← hw, diffAbs_drop]
      rw [hdd, total_path, tailN, ← hcl, diffAbs_length]
      exact sum_drop_mono (diffAbs cl) (diffAbs_mem_nonneg cl) (by omega)
    rw [hnet]
    exact le_trans htel hsum

/-- With a nondecreasing 21-close window whose leading step is flat and whose
net move is strictly positive, the efficiency ratio is exactly 1. -/
theorem efficiency_eq_one {df : List Bar} (h21 : 21 ≤ df.length)
    (hchain : List.Chain' (· ≤ ·) (tailN 21 (closesOf df)))
    (hflat : ilocNeg (closesOf df) 21 = ilocNeg (closesOf df) 20)
    (hrise : ilocNeg (closesOf df) 20 < ilocNeg (closesOf df) 1) :
    efficiency df = 1 := by
  set cl := closesOf df with hcl
  have hm : cl.length = df.length := closesOf_length df
  have hwlen : (cl.drop (cl.length - 21)).length = 21 := by
    rw [List.length_drop]
    omega
  rcases hw : cl.drop (cl.length - 21) with _ | ⟨a, t⟩
  · rw [hw] at hwlen
    simp at hwlen
  · have htlen : t.length = 20 := by
      rw [hw] at hwlen
      simpa using hwlen
    have hch : List.Chain (· ≤ ·) a t := by
      have h2 := hchain
      rw [tailN] at h2
      rw [hw] at h2
      exact h2
    have ha : ilocNeg cl 21 = a := by
      have h0 := getD_drop cl (cl.length - 21) 0
      rw [hw] at h0
      simpa [ilocNeg] using h0.symm
    have hlast : (a :: t).getD t.length 0 = ilocNeg cl 1 := by
      have h20 := getD_drop cl (cl.length - 21) 20
      rw [hw] at h20
      rw [htlen, h20, ilocNeg]
      congr 1
      omega
    have hpath : total_path df = (a :: t).getD t.length 0 - a := by
      rw [total_path_window, ← hm, ← hcl, hw]
      exact chain_le_sum a t hch
    have hnet : net_change df = ratAbs (ilocNeg cl 1 - ilocNeg cl 21) := by
      rw [net_change, ← hcl, ← hflat]
    have hpos : 0 < (a :: t).getD t.length 0 - a := by
      rw [hlast, ← ha, hflat]
      linarith
    have hpathne : total_path df ≠ 0 := by
      rw [hpath]
      linarith
    have hle : a ≤ ilocNeg cl 1 := by
      rw [← ha, hflat]
      linarith
    rw [efficiency, if_pos hpathne, hnet, hpath, hlast, ha, ratAbs_of_le hle]
    rw [hlast] at hpos
    exact div_self (ne_of_gt hpos)

theorem chain_of_nondecB : ∀ (a : ℚ) (t : List ℚ), nondecB (a :: t) = true →
    List.Chain (· ≤ ·) a t
  | a, [], _ => List.Chain.nil
  | a, b :: t', h => by
    rw [nondecB, Bool.and_eq_true, decide_eq_true_eq] at h
    exact List.Chain.cons h.1 (chain_of_nondecB b t' h.2)

theorem chain'_of_nondecB : ∀ l : List ℚ, nondecB l = true → List.Chain' (· ≤ ·) l
  | [], _ => List.chain'_nil
  | a :: t, h => chain_of_nondecB a t h

theorem chain_of_constB : ∀ (a : ℚ) (t : List ℚ), constB (a :: t) = true →
    List.Chain (· = ·) a t
  | a, [], _ => List.Chain.nil
  | a, b :: t', h => by
    rw [constB, Bool.and_eq_true, decide_eq_true_eq] at h
    exact List.Chain.cons h.1 (chain_of_constB b t' h.2)

theorem chain'_of_constB : ∀ l : List ℚ, constB l = true → List.Chain' (· = ·) l
  | [], _ => List.chain'_nil
  | a :: t, h => chain_of_constB a t h

/-- C2: for every bar series with fewer than the minimum bar count (50 in the
strict variant, 20 in the relaxed variant), `analyze_stock` returns the
insufficient-data skip outcome — `None` in the strict variant, the
"No Data/Too New" skip record in the relaxed variant — and never a
classification record. -/
theorem c2_insufficient_data (ticker : String) (df : List Bar) :
    (df.length < 50 → analyze_stock_app ticker df = none) ∧
    (df.length < 20 → analyze_stock_sl ticker df = SLOut.skip ⟨ticker, "No Data/Too New"⟩) := by
  constructor
  · intro h
    rw [analyze_stock_app, if_pos h]
  · intro h
    rw [analyze_stock_sl, if_pos (Or.inr h)]

/-- Witness for C2 at the empty bar series. -/
theorem c2_witness :
    analyze_stock_app "X" [] = none ∧
    analyze_stock_sl "X" [] = SLOut.skip ⟨"X", "No Data/Too New"⟩ :=
  ⟨(c2_insufficient_data "X" []).1 (by decide), (c2_insufficient_data "X" []).2 (by decide)⟩

/-- C7: when the close price is constant across the efficiency lookback
window (equivalently, when `total_path` is 0), the efficiency is exactly 0 —
the guard `if path != 0 else 0` never divides by zero. -/
theorem c7_flat_path_efficiency (df : List Bar) :
    (List.Chain' (· = ·) (tailN 21 (closesOf df)) → total_path df = 0) ∧
    (total_path df = 0 → efficiency df = 0) := by
  constructor
  · intro hc
    rw [total_path_window]
    rw [tailN, closesOf_length] at hc
    rcases hw : (closesOf df).drop (df.length - 21) with _ | ⟨a, t⟩
    · simp [diffAbs]
    · rw [hw] at hc
      exact chain_eq_sum a t hc
  · intro h0
    simp [efficiency, h0]

/-- Witness for C7 at the constant 20-bar series. -/
theorem c7_witness :
    total_path neutralSeries = 0 ∧ efficiency neutralSeries = 0 := by
  have h := c7_flat_path_efficiency neutralSeries
  have h1 := h.1 (chain'_of_constB _ (by decide))
  exact ⟨h1, h.2 h1⟩

/-- C9: a bar series rejected by the liquidity filter produces the
"Illiquid" skip record in the relaxed variant — a record that by construction
carries only the ticker and the reason, with no baseline, consistency or
efficiency fields — and `None` in the strict variant. The conclusion is fully
determined by the length, trailing-5 volumes and last close alone, so the
baseline/consistency/efficiency stages can contribute nothing to it. -/
theorem c9_illiquid_skip (ticker : String) (df : List Bar) :
    (20 ≤ df.length → avg_vol df * lastClose df < 2500000 →
      analyze_stock_sl ticker df = SLOut.skip ⟨ticker, "Illiquid"⟩) ∧
    (avg_vol df * lastClose df < 5000000 → analyze_stock_app ticker df = none) := by
  constructor
  · intro h20 hliq
    rw [analyze_stock_sl, if_neg ?_, if_pos hliq]
    rintro (rfl | hlt)
    · simp at h20
    · omega
  · intro hliq
    rw [analyze_stock_app]
    by_cases h50 : df.length < 50
    · rw [if_pos h50]
    · rw [if_neg h50, if_pos (Or.inl hliq)]

/-- Witness for C9 at the zero-volume 50-bar series. -/
theorem c9_witness :
    analyze_stock_sl "T" illiq50 = SLOut.skip ⟨"T", "Illiquid"⟩ ∧
    analyze_stock_app "T" illiq50 = none :=
  ⟨(c9_illiquid_skip "T" illiq50).1 (by decide) (by decide),
   (c9_illiquid_skip "T" illiq50).2 (by decide)⟩

/-- C10: for every bar series passing the sufficiency check the efficiency
ratio lies in [0, 1]: the 20-session net move telescopes inside the 20-delta
path window, so by the triangle inequality net is at most path, and the ratio
is defined as 0 when the path is 0. -/
theorem c10_efficiency_bounds (df : List Bar) (h20 : 20 ≤ df.length) :
    0 ≤ efficiency df ∧ efficiency df ≤ 1 := by
  by_cases hp : total_path df ≠ 0
  · have hnn : 0 ≤ total_path df := by
      rw [total_path, tailN]
      exact List.sum_nonneg fun x hx =>
        diffAbs_mem_nonneg _ x (List.mem_of_mem_drop hx)
    have hpos : 0 < total_path df := lt_of_le_of_ne hnn (Ne.symm hp)
    have hnet : 0 ≤ net_change df := by
      rw [net_change]
      exact ratAbs_nonneg _
    have hle := net_le_total_path h20
    rw [efficiency, if_pos hp]
    exact ⟨div_nonneg hnet (le_of_lt hpos), (div_le_one hpos).mpr hle⟩
  · rw [efficiency, if_neg hp]
    norm_num

/-- Witness for C10 at the constant 20-bar series. -/
theorem c10_witness :
    0 ≤ efficiency neutralSeries ∧ efficiency neutralSeries ≤ 1 :=
  c10_efficiency_bounds neutralSeries (by decide)

/-- C8: Diamond and Watchlist are mutually exclusive outcomes of the status
chain in both variants, and the Diamond conditions imply the Watchlist
price/consistency conditions (price above baseline and consistency at least
50). -/
theorem c8_diamond_tighter (p b c e : ℚ) :
    (statusOf_sl p b c e = "💎 INSTITUTIONAL BUY" → b < p ∧ 50 ≤ c) ∧
    ¬(statusOf_sl p b c e = "💎 INSTITUTIONAL BUY" ∧ statusOf_sl p b c e = "📝 WATCHLIST") ∧
    (statusOf_app p b c e = "💎 INSTITUTIONAL BUY" → b < p ∧ 50 ≤ c) ∧
    ¬(statusOf_app p b c e = "💎 INSTITUTIONAL BUY" ∧ statusOf_app p b c e = "📝 WATCHLIST") := by
  refine ⟨?_, ?_, ?_, ?_⟩
  · intro h
    rcases (statusOf_sl_diamond p b c e).mp h with ⟨hp, hc, -⟩
    exact ⟨hp, by linarith⟩
  · rintro ⟨h1, h2⟩
    rw [h1] at h2
    exact absurd h2 (by decide)
  · intro h
    rcases (statusOf_app_diamond p b c e).mp h with ⟨hp, hc, -⟩
    exact ⟨hp, by linarith⟩
  · rintro ⟨h1, h2⟩
    rw [h1] at h2
    exact absurd h2 (by decide)

/-- Witness for C8 at a concrete Diamond-qualifying input. -/
theorem c8_witness :
    ((1 : ℚ) < 2 ∧ (50 : ℚ) ≤ 100) ∧
    ¬(statusOf_sl 2 1 100 1 = "💎 INSTITUTIONAL BUY" ∧
      statusOf_sl 2 1 100 1 = "📝 WATCHLIST") :=
  ⟨(c8_diamond_tighter 2 1 100 1).1 (by decide),
   (c8_diamond_tighter 2 1 100 1).2.1⟩

/-- C1 (amended): in the relaxed variant's coordinator every submitted ticker
is accounted exactly once — each task's dict lands either in `results` (when
it has a `"Status"` key) or in `skipped_log`, so
`len(results) + len(skips) = len(input_tickers)`. (The strict variant's
coordinator keeps no skip log; see the counterexample.) -/
theorem c1_scan_accounting (fetch : String → Except String (List Bar))
    (ticker_list : List String) :
    (run_scan_sl fetch ticker_list).1.length + (run_scan_sl fetch ticker_list).2.length
      = ticker_list.length := by
  induction ticker_list with
  | nil => rfl
  | cons t rest ih =>
    cases hres : analyze_stock_sl_fetch fetch t with
    | result r =>
      simp only [run_scan_sl, hres, List.length_cons]
      omega
    | skip s =>
      simp only [run_scan_sl, hres, List.length_cons]
      omega

/-- C1 counterexample: the strict variant's coordinator report is the results
list alone — a submitted ticker whose analysis returns `None` appears nowhere,
so the report accounts 0 entries for 1 submitted ticker and the claimed
equation fails (0 results + 0 skips, but 1 input). -/
theorem c1_counterexample :
    run_scan_app emptyFetch ["X"] = [] ∧
    (run_scan_app emptyFetch ["X"]).length + 0 ≠ (["X"] : List String).length := by
  constructor
  · decide
  · decide

/-- C4 (amended): the current-calendar-year partition always contains the most
recent bar, so it is non-empty for every non-empty series, and the relaxed
variant's baseline is always the VWAP of the partition — the 50-session-SMA
fallback branch is dead code. -/
theorem c4_year_partition_baseline (df : List Bar) (h : df ≠ []) :
    year_partition df ≠ [] ∧ current_yvwap_sl df = vwap (year_partition df) :=
  ⟨year_partition_ne_nil h, current_yvwap_sl_eq_vwap h⟩

/-- C4 counterexample: the only series whose current-year partition is empty
is the empty series, and there `analyze_stock` skips at the sufficiency stage
(relaxed: "No Data/Too New"; strict: `None`) — it neither computes an SMA
baseline nor proceeds to classification, contrary to the claim. -/
theorem c4_counterexample :
    year_partition [] = [] ∧
    analyze_stock_sl "T" [] = SLOut.skip ⟨"T", "No Data/Too New"⟩ ∧
    analyze_stock_app "T" [] = none := by
  refine ⟨rfl, by decide, by decide⟩

/-- Witness for C4 at a one-bar series. -/
theorem c4_witness :
    year_partition [oneBar] ≠ [] ∧
    current_yvwap_sl [oneBar] = vwap (year_partition [oneBar]) :=
  c4_year_partition_baseline [oneBar] (by decide)

/-- C3 (amended): the strict variant rejects at the liquidity stage whenever
turnover is below 5,000,000 or the last close is below the price floor 10;
the relaxed variant rejects exactly when turnover is below 2,500,000 and
applies no price floor (its price-floor comment notwithstanding). -/
theorem c3_liquidity_filter (ticker : String) (df : List Bar) :
    (avg_vol df * lastClose df < 5000000 ∨ lastClose df < 10 →
      analyze_stock_app ticker df = none) ∧
    (20 ≤ df.length →
      (analyze_stock_sl ticker df = SLOut.skip ⟨ticker, "Illiquid"⟩ ↔
        avg_vol df * lastClose df < 2500000)) := by
  constructor
  · intro h
    rw [analyze_stock_app]
    by_cases h50 : df.length < 50
    · rw [if_pos h50]
    · rw [if_neg h50, if_pos h]
  · intro h20
    constructor
    · intro h
      rw [analyze_stock_sl] at h
      split_ifs at h with h1 h2 h3
      · simp at h
      · exact h2
      · simp at h
    · intro h
      rw [analyze_stock_sl, if_neg ?_, if_pos h]
      rintro (rfl | hlt)
      · simp at h20
      · omega

/-- C3 counterexample: a 20-bar series with last close 5 — below both price
floors — and turnover 5,000,000 is not rejected by the relaxed variant's
liquidity stage: it reaches classification and is discarded there as
"Failed Criteria", not as "Illiquid"/below-price-floor. -/
theorem c3_counterexample :
    lastClose cex3 = 5 ∧ (5 : ℚ) < 10 ∧
    (2500000 : ℚ) ≤ avg_vol cex3 * lastClose cex3 ∧
    analyze_stock_sl "T" cex3 = SLOut.skip ⟨"T", "Failed Criteria"⟩ ∧
    analyze_stock_sl "T" cex3 ≠ SLOut.skip ⟨"T", "Illiquid"⟩ := by
  refine ⟨by decide, by norm_num, by decide,
    by decide, by decide⟩

/-- Witness for C3 at the zero-volume 50-bar series. -/
theorem c3_witness :
    analyze_stock_app "T" illiq50 = none ∧
    (analyze_stock_sl "T" illiq50 = SLOut.skip ⟨"T", "Illiquid"⟩ ↔
      avg_vol illiq50 * lastClose illiq50 < 2500000) :=
  ⟨(c3_liquidity_filter "T" illiq50).1 (Or.inl (by decide)),
   (c3_liquidity_filter "T" illiq50).2 (by decide)⟩

/-- C5: the classification decision follows the ordered first-match rules in
both variants — Diamond iff price above baseline, consistency at least 60 and
efficiency at least 0.30; Watchlist iff price above baseline and consistency
at least 50 without the Diamond extras; Trending (relaxed variant only) iff
price above baseline and consistency below 50; NEUTRAL otherwise — and a
NEUTRAL outcome is emitted as the "Failed Criteria" skip (relaxed) / `None`
(strict), never as a result record. -/
theorem c5_classification_rules :
    (∀ p b c e : ℚ,
      (statusOf_sl p b c e = "💎 INSTITUTIONAL BUY" ↔ b < p ∧ 60 ≤ c ∧ 3/10 ≤ e) ∧
      (statusOf_sl p b c e = "📝 WATCHLIST" ↔ b < p ∧ 50 ≤ c ∧ ¬(60 ≤ c ∧ 3/10 ≤ e)) ∧
      (statusOf_sl p b c e = "🔵 TRENDING (Test)" ↔ b < p ∧ c < 50) ∧
      (statusOf_sl p b c e = "NEUTRAL" ↔ p ≤ b) ∧
      (statusOf_app p b c e = "💎 INSTITUTIONAL BUY" ↔ b < p ∧ 60 ≤ c ∧ 3/10 ≤ e) ∧
      (statusOf_app p b c e = "📝 WATCHLIST" ↔ b < p ∧ 50 ≤ c ∧ ¬(60 ≤ c ∧ 3/10 ≤ e)) ∧
      (statusOf_app p b c e = "NEUTRAL" ↔ p ≤ b ∨ c < 50)) ∧
    (∀ (t : String) (df : List Bar) (r : SLResult),
      analyze_stock_sl t df = SLOut.result r → r.Status ≠ "NEUTRAL") ∧
    (∀ (t : String) (df : List Bar) (r : AppResult),
      analyze_stock_app t df = some r → r.Status ≠ "NEUTRAL") ∧
    (∀ (t : String) (df : List Bar), 20 ≤ df.length →
      ¬(avg_vol df * lastClose df < 2500000) →
      statusOf_sl (lastClose df) (current_yvwap_sl df) (consistency df) (efficiency df)
        = "NEUTRAL" →
      analyze_stock_sl t df = SLOut.skip ⟨t, "Failed Criteria"⟩) := by
  refine ⟨?_, ?_, ?_, ?_⟩
  · intro p b c e
    exact ⟨statusOf_sl_diamond p b c e, statusOf_sl_watch p b c e,
      statusOf_sl_trending p b c e, statusOf_sl_neutral p b c e,
      statusOf_app_diamond p b c e, statusOf_app_watch p b c e,
      statusOf_app_neutral p b c e⟩
  · intro t df r h
    rw [analyze_stock_sl] at h
    split_ifs at h with h1 h2 h3
    injection h with h'
    rw [← h']
    exact h3
  · intro t df r h
    rw [analyze_stock_app] at h
    split_ifs at h with h1 h2 h3 h4
    injection h with h'
    rw [← h']
    exact h4
  · intro t df h20 hliq hstat
    rw [analyze_stock_sl, if_neg ?_, if_neg hliq, if_pos hstat]
    rintro (rfl | hlt)
    · simp at h20
    · omega

/-- Witness for C5: a Diamond-qualifying input, a result record whose status
is not NEUTRAL, and a concrete series discarded as "Failed Criteria". -/
theorem c5_witness :
    statusOf_sl 2 1 100 1 = "💎 INSTITUTIONAL BUY" ∧
    witRec.Status ≠ "NEUTRAL" ∧
    analyze_stock_sl "T" neutralSeries = SLOut.skip ⟨"T", "Failed Criteria"⟩ := by
  refine ⟨((c5_classification_rules.1 2 1 100 1).1).mpr (by norm_num), ?_, ?_⟩
  · exact c5_classification_rules.2.1 "T" witSeries witRec (by decide)
  · exact c5_classification_rules.2.2.2 "T" neutralSeries (by decide)
      (by decide) (by decide)

/-- C6 (amended): a series passing the sufficiency and liquidity stages whose
last-21-close window is nondecreasing with a flat leading step
(`close[-21] = close[-20]`), a strictly positive net move, all of the last 20
sessions green, and last close above the yearly-VWAP baseline has efficiency
exactly 1 and classifies as Diamond in both variants. (Without the flat
leading step the claim fails: the path window spans 21 closes while the net
window spans 20, so a strictly rising series has efficiency below 1 — see the
counterexample.) -/
theorem c6_monotone_diamond (t : String) (df : List Bar)
    (h50 : 50 ≤ df.length)
    (hliq : 5000000 ≤ avg_vol df * lastClose df)
    (hfloor : 10 ≤ lastClose df)
    (hchain : List.Chain' (· ≤ ·) (tailN 21 (closesOf df)))
    (hflat : ilocNeg (closesOf df) 21 = ilocNeg (closesOf df) 20)
    (hrise : ilocNeg (closesOf df) 20 < ilocNeg (closesOf df) 1)
    (hgreen : ∀ b ∈ df.drop (df.length - 20), b.Open < b.Close)
    (hprice : vwap (year_partition df) < lastClose df) :
    efficiency df = 1 ∧
    (∃ r : SLResult, analyze_stock_sl t df = SLOut.result r ∧
      r.Status = "💎 INSTITUTIONAL BUY") ∧
    (∃ r : AppResult, analyze_stock_app t df = some r ∧
      r.Status = "💎 INSTITUTIONAL BUY") := by
  have hne : df ≠ [] := by
    intro hnil
    rw [hnil] at h50
    simp at h50
  have heff : efficiency df = 1 := efficiency_eq_one (by omega) hchain hflat hrise
  have hcons : consistency df = 100 := consistency_of_all_green (by omega) hgreen
  have hyv : current_yvwap_sl df = vwap (year_partition df) := current_yvwap_sl_eq_vwap hne
  have hstat_sl : statusOf_sl (lastClose df) (current_yvwap_sl df) (consistency df)
      (efficiency df) = "💎 INSTITUTIONAL BUY" := by
    rw [hyv, hcons, heff]
    exact (statusOf_sl_diamond _ _ _ _).mpr ⟨hprice, by norm_num, by norm_num⟩
  have hstat_app : statusOf_app (lastClose df) (vwap (year_partition df)) (consistency df)
      (efficiency df) = "💎 INSTITUTIONAL BUY" := by
    rw [hcons, heff]
    exact (statusOf_app_diamond _ _ _ _).mpr ⟨hprice, by norm_num, by norm_num⟩
  have hsl : analyze_stock_sl t df = SLOut.result ⟨t, lastClose df,
      statusOf_sl (lastClose df) (current_yvwap_sl df) (consistency df) (efficiency df),
      consistency df, efficiency df, current_yvwap_sl df⟩ := by
    rw [analyze_stock_sl, if_neg ?_, if_neg (by linarith), if_neg (by rw [hstat_sl]; decide)]
    rintro (rfl | hlt)
    · simp at h50
    · omega
  have happ : analyze_stock_app t df = some ⟨t, lastClose df,
      statusOf_app (lastClose df) (vwap (year_partition df)) (consistency df) (efficiency df),
      consistency df, efficiency df,
      ((lastClose df - vwap (year_partition df)) / vwap (year_partition df)) * 100⟩ := by
    rw [analyze_stock_app, if_neg (by omega), if_neg ?_,
      if_neg (year_partition_ne_nil hne), if_neg (by rw [hstat_app]; decide)]
    rintro (hlt | hlt)
    · linarith
    · linarith
  exact ⟨heff, ⟨_, hsl, hstat_sl⟩, ⟨_, happ, hstat_app⟩⟩

/-- Witness for C6 at the flat-step Diamond series. -/
theorem c6_witness :
    efficiency witSeries = 1 ∧
    (∃ r : SLResult, analyze_stock_sl "T" witSeries = SLOut.result r ∧
      r.Status = "💎 INSTITUTIONAL BUY") ∧
    (∃ r : AppResult, analyze_stock_app "T" witSeries = some r ∧
      r.Status = "💎 INSTITUTIONAL BUY") :=
  c6_monotone_diamond "T" witSeries (by decide)
    (by decide) (by decide)
    (chain'_of_nondecB _ (by decide))
    (by decide) (by decide)
    (by decide) (by decide)

/-- C6 counterexample: a 50-bar series with strictly increasing closes, all
of the last 20 sessions green, passing both liquidity filters, and ending
exactly 10 percent above its yearly-VWAP baseline of 100, whose efficiency is
19/20 — not 1.0 as the claim asserts (the path window spans one session more
than the net window). -/
theorem c6_counterexample :
    strictIncB (closesOf cex6) = true ∧
    ((cex6.drop 30).all fun b => decide (b.Open < b.Close)) = true ∧
    cex6.length = 50 ∧
    lastClose cex6 = (11/10) * vwap (year_partition cex6) ∧
    efficiency cex6 = 19/20 ∧
    efficiency cex6 ≠ 1 := by
  refine ⟨by decide, by decide, by decide,
    by decide, by decide, by decide⟩
